import Mathlib

/-! Shallow embedding of the MeshCore chat/repeater layer:
`src/src/helpers/BaseChatMesh.cpp`, `src/examples/simple_repeater/main.cpp`
and `src/src/helpers/ESP32Board.h`. Byte strings are modelled as `List Nat`
(entries `< 256` where it matters), `uint32_t` values as `Nat` (with an
explicit `% 2^32` where the code can wrap), and the out-of-scope
primitives (SHA-256, ECDH, base64, the radio and the packet pool) as
explicit function or boolean parameters. -/

/-- Byte strings on the wire. -/
abbrev Bytes := List Nat

/-- Value read by `memcpy(&x, data, 4)` for a little-endian `uint32_t`. -/
def readLE32 (d : Bytes) : Nat :=
  d.getD 0 0 + 256 * (d.getD 1 0 + 256 * (d.getD 2 0 + 256 * d.getD 3 0))

/-- Little-endian 4-byte encoding of a `uint32_t` (`memcpy(dest, &x, 4)`). -/
def le32 (n : Nat) : Bytes :=
  [n % 256, n / 256 % 256, n / 65536 % 256, n / 16777216 % 256]

/-- Payload types of the wire protocol (the `PAYLOAD_TYPE_*` constants). -/
inductive PayloadType
  | req | response | txtMsg | ack | advert | anonReq | path | grpTxt
deriving DecidableEq, Repr

/-- How an outbound packet is handed to the router: plain flood, direct
along a stored out-path, or a `createPathReturn` reply (which reverses the
inbound flood path) that is then flooded. -/
inductive SendRoute
  | flood
  | direct (path : Bytes)
  | pathReturnFlood (inPath : Bytes)
deriving DecidableEq, Repr

/-- An outbound packet as built by `createDatagram` / `createAck` /
`createPathReturn` and handed to `sendFlood` / `sendDirect`. -/
structure OutPacket where
  ptype : PayloadType
  payload : Bytes
  secret : Bytes
  route : SendRoute
  delayMillis : Nat
deriving DecidableEq, Repr

/-- The C string read at `&data[k]` after `data[len] = 0`: the bytes up to
the first zero byte. -/
def cstr (d : Bytes) : Bytes := d.takeWhile (fun b => decide (b ≠ 0))

namespace BaseChatMesh

/-- Per-contact state (`ContactInfo` in `BaseChatMesh.h`): identity public
key, display name, advert type, replay-guard advert timestamp, cached ECDH
secret and the learned out-path (`out_path_len = -1` means unknown, in
which case `out_path` holds no meaningful bytes). -/
structure ContactInfo where
  id : Bytes
  name : String
  type : Nat
  last_advert_timestamp : Nat
  shared_secret : Bytes
  out_path_len : Int
  out_path : Bytes
deriving DecidableEq, Repr

/-- Result of `onAdvertRecv`: the new contact table and, when the
`onDiscoveredContact` upcall is made, its arguments (contact, `is_new`). -/
structure AdvertOut where
  contacts : List ContactInfo
  discovered : Option (ContactInfo × Bool)
deriving DecidableEq, Repr

/-- `BaseChatMesh::onAdvertRecv` (BaseChatMesh.cpp:15-56). The
`AdvertDataParser` is an opaque collaborator per the spec, so its outcome
is an input: `parsed = none` when `isValid && hasName` fails, otherwise
the parsed name and type. `ecdh` stands for
`LocalIdentity::calcSharedSecret`, `Identity::matches` is public-key
equality, and `maxContacts` is the `MAX_CONTACTS` build constant. The
search loop stops at the first matching contact. -/
def onAdvertRecv (ecdh : Bytes → Bytes → Bytes) (selfId : Bytes)
    (maxContacts : Nat) (contacts : List ContactInfo)
    (id : Bytes) (timestamp : Nat) (parsed : Option (String × Nat)) : AdvertOut :=
  match parsed with
  | none => ⟨contacts, none⟩
  | some (nm, ty) =>
    match contacts.findIdx? (fun c => decide (c.id = id)) with
    | some i =>
      match contacts[i]? with
      | none => ⟨contacts, none⟩   -- unreachable: findIdx? returns an in-range index
      | some c =>
        if timestamp ≤ c.last_advert_timestamp then ⟨contacts, none⟩
        else
          let upd := { c with name := nm, type := ty, last_advert_timestamp := timestamp }
          ⟨contacts.set i upd, some (upd, false)⟩
    | none =>
      if contacts.length < maxContacts then
        let fresh : ContactInfo :=
          { id := id, name := nm, type := ty, last_advert_timestamp := timestamp,
            shared_secret := ecdh selfId id, out_path_len := -1, out_path := [] }
        ⟨contacts ++ [fresh], some (fresh, true)⟩
      else ⟨contacts, none⟩

/-- Result of `BaseChatMesh::onPeerDataRecv`: the arguments of the
`onMessageRecv` UI upcall when it is made (timestamp, text), and the
ACK / path-return packet handed to the router. -/
structure PeerOut where
  messageRecv : Option (Nat × Bytes)
  ack : Option OutPacket
deriving DecidableEq, Repr

/-- `BaseChatMesh::onPeerDataRecv` (BaseChatMesh.cpp:78-121). `H` stands
for the truncated 4-byte `mesh::Utils::sha256` digest; `poolOk` for
`createPathReturn` / `createAck` succeeding (packet pool not empty). The
resolution of `matching_peer_indexes` (lines 80-84) is done by the
caller, which passes the resolved contact `from_`. Note that this handler
performs no timestamp replay check: the guard sketched at line 95 is
commented out in the source, and an ACK is produced for any plain-text
message whatever its timestamp. -/
def onPeerDataRecv (H : Bytes → Bytes) (poolOk : Bool)
    (from_ : ContactInfo) (isRouteFlood : Bool) (packetPath : Bytes)
    (type : PayloadType) (data : Bytes) : PeerOut :=
  if type = .txtMsg ∧ data.length > 5 then
    let timestamp := readLE32 data
    let flags := data.getD 4 0
    if flags / 4 = 0 then
      let text := cstr (data.drop 5)
      let ackPayload := H (data.take (5 + text.length) ++ from_.id)
      let ack : Option OutPacket :=
        if poolOk then
          if isRouteFlood then
            some ⟨.ack, ackPayload, from_.shared_secret, .pathReturnFlood packetPath, 0⟩
          else if from_.out_path_len < 0 then
            some ⟨.ack, ackPayload, [], .flood, 0⟩
          else
            some ⟨.ack, ackPayload, [], .direct from_.out_path, 0⟩
        else none
      ⟨some (timestamp, text), ack⟩
    else ⟨none, none⟩
  else ⟨none, none⟩

/-- `BaseChatMesh::composeMsgPacket` (BaseChatMesh.cpp:180-194). Returns
the datagram payload (`none` when the text is longer than `maxTextLen`,
i.e. `MAX_TEXT_LEN`, or when `createDatagram` fails, `poolOk = false`)
and the expected ACK. The payload is `[timestamp:4][attempt & 3][text]`;
the expected ACK is the digest of that payload followed by our own public
key, and is computed before `createDatagram` runs (on the too-long early
return it is left unwritten, modelled as `[]`). -/
def composeMsgPacket (H : Bytes → Bytes) (poolOk : Bool) (maxTextLen : Nat)
    (selfPub : Bytes) (rtcNow : Nat) (attempt : Nat) (text : Bytes) :
    Option Bytes × Bytes :=
  if text.length > maxTextLen then (none, [])
  else
    let payload := le32 rtcNow ++ [attempt % 4] ++ text
    (if poolOk then some payload else none, H (payload ++ selfPub))

/-- Return codes of `sendMessage` (`MSG_SEND_FAILED`,
`MSG_SEND_SENT_FLOOD`, `MSG_SEND_SENT_DIRECT`). -/
inductive SendResult
  | failed | sentFlood | sentDirect
deriving DecidableEq, Repr

/-- Result of `sendMessage`: return code, the packet handed to the
router, and whether the ACK timeout timer was armed. -/
structure SendOut where
  result : SendResult
  sent : Option OutPacket
  timeoutArmed : Bool
deriving DecidableEq, Repr

/-- `BaseChatMesh::sendMessage` (BaseChatMesh.cpp:196-213). On success the
datagram goes direct when `out_path_len >= 0` and flood otherwise, and
`txt_send_timeout` is armed (its value comes from the radio airtime
estimate, an external collaborator; only the arming is recorded). -/
def sendMessage (H : Bytes → Bytes) (poolOk : Bool) (maxTextLen : Nat)
    (selfPub : Bytes) (rtcNow : Nat) (recipient : ContactInfo)
    (attempt : Nat) (text : Bytes) : SendOut :=
  match composeMsgPacket H poolOk maxTextLen selfPub rtcNow attempt text with
  | (none, _) => ⟨.failed, none, false⟩
  | (some payload, _) =>
    if recipient.out_path_len < 0 then
      ⟨.sentFlood, some ⟨.txtMsg, payload, recipient.shared_secret, .flood, 0⟩, true⟩
    else
      ⟨.sentDirect, some ⟨.txtMsg, payload, recipient.shared_secret,
        .direct recipient.out_path, 0⟩, true⟩

/-- `BaseChatMesh::addContact` (BaseChatMesh.cpp:257-268): append when
there is room, recomputing the ECDH secret; returns success. -/
def addContact (ecdh : Bytes → Bytes → Bytes) (selfId : Bytes)
    (maxContacts : Nat) (contacts : List ContactInfo) (contact : ContactInfo) :
    List ContactInfo × Bool :=
  if contacts.length < maxContacts then
    (contacts ++ [{ contact with shared_secret := ecdh selfId contact.id }], true)
  else (contacts, false)

/-- A group channel (`mesh::GroupChannel`): symmetric key and its hash. -/
structure GroupChannel where
  secret : Bytes
  hash : Bytes
deriving DecidableEq, Repr

/-- `BaseChatMesh::addChannel` (BaseChatMesh.cpp:273-286). The base64
decode is an external library call, so the already-decoded key bytes are
the input; the channel is stored (and the count incremented) only when
there is room and the decoded length is 32 or 16. `Hfull` stands for
`mesh::Utils::sha256` over the key. -/
def addChannel (Hfull : Bytes → Bytes) (maxChannels : Nat)
    (channels : List GroupChannel) (decoded : Bytes) :
    List GroupChannel × Option GroupChannel :=
  if channels.length < maxChannels then
    if decoded.length = 32 ∨ decoded.length = 16 then
      let ch : GroupChannel := ⟨decoded, Hfull decoded⟩
      (channels ++ [ch], some ch)
    else (channels, none)
  else (channels, none)

/-- State relevant to the text-send ACK wait: the armed timer
(`txt_send_timeout`, 0 = disarmed) and the awaited 4-byte hash. -/
structure AckWaitState where
  txt_send_timeout : Nat
  expected_ack : Bytes
deriving DecidableEq, Repr

/-- Modelled from the spec: `Mesh::processAck` is code of this repository
that is not under `src/` (only its callers are). The spec states that
receipt of an ACK whose 4-byte hash equals the expected ack cancels the
timeout, so `processAck` matches exactly when the 4 ACK bytes equal the
awaited hash. -/
def processAck (s : AckWaitState) (ack : Bytes) : Bool :=
  decide (ack = s.expected_ack)

/-- `BaseChatMesh::onAckRecv` (BaseChatMesh.cpp:147-152): a matching ACK
cancels the timer and marks the packet do-not-retransmit. Returns the new
ack-wait state and the `markDoNotRetransmit` flag. -/
def onAckRecv (s : AckWaitState) (ack_crc : Bytes) : AckWaitState × Bool :=
  if processAck s ack_crc then ({ s with txt_send_timeout := 0 }, true)
  else (s, false)

/-- `BaseChatMesh::onPeerPathRecv` (BaseChatMesh.cpp:123-145): stores the
new out-path on the resolved contact unconditionally, then cancels the
ACK timer only when the piggy-backed extra is an ACK of at least 4 bytes
that matches. Returns (updated contact, new ack-wait state, the constant
`true` reply flag). -/
def onPeerPathRecv (s : AckWaitState) (from_ : ContactInfo)
    (path : Bytes) (extra_type : PayloadType) (extra : Bytes) :
    ContactInfo × AckWaitState × Bool :=
  let upd := { from_ with out_path := path, out_path_len := (path.length : Int) }
  let s2 :=
    if extra_type = .ack ∧ extra.length ≥ 4 ∧ processAck s (extra.take 4) then
      { s with txt_send_timeout := 0 }
    else s
  (upd, s2, true)

/-- `BaseChatMesh::loop` (BaseChatMesh.cpp:300-308), after the base
`Mesh::loop()` call (router housekeeping, not under `src/`): when a timer
is armed and has expired, invoke `onSendTimeout` and clear the timer. The
expiry test `millisHasNowPassed(txt_send_timeout)` depends on the millis
clock, an external collaborator, and is passed in as `passed`. Returns
(new state, whether `onSendTimeout` was invoked, the packets this code
hands to the router — always none: a fired timeout does not resend). -/
def loop (s : AckWaitState) (passed : Bool) :
    AckWaitState × Bool × List OutPacket :=
  if s.txt_send_timeout ≠ 0 ∧ passed then
    ({ s with txt_send_timeout := 0 }, true, [])
  else (s, false, [])

end BaseChatMesh

namespace MyMesh

/-- `ClientInfo` (simple_repeater main.cpp:92-98). -/
structure ClientInfo where
  id : Bytes
  last_timestamp : Nat
  secret : Bytes
  out_path_len : Int
  out_path : Bytes
deriving DecidableEq, Repr

/-- `MAX_CLIENTS` (main.cpp:100). -/
def MAX_CLIENTS : Nat := 4

/-- `ADMIN_PASSWORD` "h^(kl@#)" as bytes (main.cpp:50). -/
def adminPassword : Bytes := [104, 94, 40, 107, 108, 64, 35, 41]

/-- `CLI_REPLY_DELAY_MILLIS` (main.cpp:103). -/
def CLI_REPLY_DELAY_MILLIS : Nat := 1500

/-- `CMD_GET_STATS` (main.cpp:76). -/
def CMD_GET_STATS : Nat := 1

/-- `FIRMWARE_VER_TEXT` (main.cpp:21). -/
def FIRMWARE_VER_TEXT : String := "v1 (build: 24 Jan 2025)"

/-- `MyMesh::putClient` (main.cpp:112-125): return the index of the
existing entry for this identity, or append a fresh entry
(`last_timestamp = 0`, no out-path, freshly computed ECDH secret) when
there is room; index `none` when the table is full. `Identity::matches`
is public-key equality. -/
def putClient (ecdh : Bytes → Bytes → Bytes) (selfId : Bytes)
    (clients : List ClientInfo) (id : Bytes) :
    List ClientInfo × Option Nat :=
  match clients.findIdx? (fun c => decide (c.id = id)) with
  | some i => (clients, some i)
  | none =>
    if clients.length < MAX_CLIENTS then
      (clients ++ [{ id := id, last_timestamp := 0, secret := ecdh selfId id,
                     out_path_len := -1, out_path := [] }], some clients.length)
    else (clients, none)

/-- Result of `MyMesh::onAnonDataRecv`: the new client table and the
reply handed to the router, if any. -/
structure AnonOut where
  clients : List ClientInfo
  reply : Option OutPacket
deriving DecidableEq, Repr

/-- The "OK" bytes of the login reply (main.cpp:190). -/
def okBytes : Bytes := [79, 75]

/-- `MyMesh::onAnonDataRecv` (main.cpp:173-212). `ecdh` stands for
`calcSharedSecret`, `poolOk` for `createPathReturn` / `createDatagram`
succeeding. Note the order in the source: `putClient` runs — and may
insert a fresh entry with `last_timestamp = 0` — before the timestamp
replay check, so a replay-dropped request from an unknown sender still
grows the table. The wrong-password branch only null-terminates the
received buffer for a debug print and returns. -/
def onAnonDataRecv (ecdh : Bytes → Bytes → Bytes) (selfId : Bytes)
    (rtcNow : Nat) (poolOk : Bool) (clients : List ClientInfo)
    (sender : Bytes) (isRouteFlood : Bool) (packetPath : Bytes)
    (type : PayloadType) (data : Bytes) : AnonOut :=
  if type = .anonReq then
    let timestamp := readLE32 data
    if adminPassword.isPrefixOf (data.drop 4) then
      match putClient ecdh selfId clients sender with
      | (cs, none) => ⟨cs, none⟩
      | (cs, some i) =>
        match cs[i]? with
        | none => ⟨cs, none⟩   -- unreachable: putClient returns an in-range index
        | some c =>
          if timestamp ≤ c.last_timestamp then ⟨cs, none⟩
          else
            let cs2 := cs.set i { c with last_timestamp := timestamp }
            let payload := le32 rtcNow ++ okBytes
            let reply : Option OutPacket :=
              if poolOk then
                if isRouteFlood then
                  some ⟨.response, payload, c.secret, .pathReturnFlood packetPath, 0⟩
                else if c.out_path_len ≥ 0 then
                  some ⟨.response, payload, c.secret, .direct c.out_path, 0⟩
                else
                  some ⟨.response, payload, c.secret, .flood, 0⟩
              else none
            ⟨cs2, reply⟩
    else ⟨clients, none⟩
  else ⟨clients, none⟩

/-- `MyMesh::handleRequest` (main.cpp:127-162): a `GET_STATS` request is
answered by the current time followed by the packed 44-byte
`RepeaterStats` (board and radio readings, external, passed in as
`stats`); any other command byte yields reply length 0 (no reply). -/
def handleRequest (rtcNow : Nat) (stats : Bytes) (payload : Bytes) : Bytes :=
  if payload.getD 0 0 = CMD_GET_STATS then le32 rtcNow ++ stats else []

/-- Side effect of a CLI command beyond its reply text: `board.reboot()`
(which does not return), `sendSelfAdvertisement()`, the RTC being set to
`t` (`getRTCClock()->setCurrentTime(t)`, which per `ESP32Board.h:54-59`
stores exactly `t`), or the airtime-factor assignment (its `atof` parse
is external, so the raw argument text is recorded). -/
inductive CmdEffect
  | noEffect
  | reboot
  | advertSent
  | clockSet (t : Nat)
  | setAF (raw : String)
deriving DecidableEq, Repr

/-- Reply of the plain `clock` command: the current time formatted via
`sprintf` and the external RTClib `DateTime`, modelled as an abstract
rendering of the time value. -/
def clockDisplay (now : Nat) : String := "UTC " ++ toString now

/-- `MyMesh::handleCommand` (main.cpp:367-399). The command is matched by
`memcmp` against each keyword in source order after skipping leading
spaces, i.e. by prefix. `rtcNow` is the `getCurrentTime()` reading.
Returns the reply text and the side effect; the `reboot` branch never
returns in the source, so its reply is empty here. -/
def handleCommand (rtcNow : Nat) (sender_timestamp : Nat) (command : List Char) :
    String × CmdEffect :=
  let cmd := command.dropWhile (fun ch => ch = ' ')
  if "reboot".data.isPrefixOf cmd then
    ("", .reboot)
  else if "advert".data.isPrefixOf cmd then
    ("OK - Advert sent", .advertSent)
  else if "clock sync".data.isPrefixOf cmd then
    if sender_timestamp > rtcNow then
      ("OK - clock set", .clockSet ((sender_timestamp + 1) % 4294967296))
    else
      ("ERR: clock cannot go backwards", .noEffect)
  else if "clock".data.isPrefixOf cmd then
    (clockDisplay rtcNow, .noEffect)
  else if "set ".data.isPrefixOf cmd then
    if "AF".data.isPrefixOf (cmd.drop 4) ∨ "af".data.isPrefixOf (cmd.drop 4) then
      ("OK", .setAF (String.mk (cmd.drop 7)))
    else
      ("unknown config: " ++ String.mk (cmd.drop 4), .noEffect)
  else if "ver".data.isPrefixOf cmd then
    (FIRMWARE_VER_TEXT, .noEffect)
  else
    ("Unknown: " ++ String.mk cmd ++ " (commands: reboot, advert, clock, set, ver)",
      .noEffect)

/-- Bytes of a reply string as written by `strcpy` / `sprintf`. -/
def strBytes (s : String) : Bytes := s.data.map Char.toNat

/-- Timestamp placed in the CLI reply (main.cpp:300-304): the current RTC
time, incremented — with `uint32_t` wrap — exactly when it collides with
the sender's timestamp. -/
def cliReplyTimestamp (rtcNow sender_timestamp : Nat) : Nat :=
  if rtcNow = sender_timestamp then (rtcNow + 1) % 4294967296 else rtcNow

/-- Result of `MyMesh::onPeerDataRecv`: the (possibly updated) client
entry, the ACK sent on the CLI text path, the reply packet, and whether
`board.reboot()` was reached (in which case nothing after it runs). -/
structure PeerOut where
  client : ClientInfo
  ack : Option OutPacket
  reply : Option OutPacket
  rebooted : Bool
deriving DecidableEq, Repr

/-- `MyMesh::onPeerDataRecv` (main.cpp:236-324). The
`matching_peer_indexes` resolution (lines 237-242) is done by the caller,
which passes the resolved known client. `H` is the truncated 4-byte
SHA-256; `poolOk` covers `createPathReturn` / `createAck` /
`createDatagram`; `stats` the board readings used by `GET_STATS`. The
source reads `getCurrentTime()` twice on the CLI path (in
`handleCommand` and for the reply timestamp); both reads are modelled by
the single `rtcNow`. For `PAYLOAD_TYPE_REQ`, `last_timestamp` is only
updated after `handleRequest` returns a non-empty reply; for
`PAYLOAD_TYPE_TXT_MSG` with `flags = 0` and a strictly newer timestamp,
`last_timestamp` is updated, an ACK is sent, and a non-empty command
reply is sent as a `TXT_MSG` datagram with the collision-avoiding
timestamp and `CLI_REPLY_DELAY_MILLIS` delay. -/
def onPeerDataRecv (H : Bytes → Bytes) (poolOk : Bool) (rtcNow : Nat)
    (stats : Bytes) (client : ClientInfo) (isRouteFlood : Bool)
    (packetPath : Bytes) (type : PayloadType) (data : Bytes) : PeerOut :=
  if type = .req then
    let timestamp := readLE32 data
    if timestamp > client.last_timestamp then
      let reply_data := handleRequest rtcNow stats (data.drop 4)
      if reply_data.length = 0 then ⟨client, none, none, false⟩
      else
        let client2 := { client with last_timestamp := timestamp }
        let reply : Option OutPacket :=
          if poolOk then
            if isRouteFlood then
              some ⟨.response, reply_data, client.secret, .pathReturnFlood packetPath, 0⟩
            else if client.out_path_len ≥ 0 then
              some ⟨.response, reply_data, client.secret, .direct client.out_path, 0⟩
            else
              some ⟨.response, reply_data, client.secret, .flood, 0⟩
          else none
        ⟨client2, none, reply, false⟩
    else ⟨client, none, none, false⟩
  else if type = .txtMsg ∧ data.length > 5 then
    let sender_timestamp := readLE32 data
    let flags := data.getD 4 0
    if flags ≠ 0 then ⟨client, none, none, false⟩
    else if sender_timestamp > client.last_timestamp then
      let client2 := { client with last_timestamp := sender_timestamp }
      let text := cstr (data.drop 5)
      let ackPayload := H (data.take (5 + text.length) ++ client.id)
      let ack : Option OutPacket :=
        if poolOk then
          if client.out_path_len < 0 then some ⟨.ack, ackPayload, [], .flood, 0⟩
          else some ⟨.ack, ackPayload, [], .direct client.out_path, 0⟩
        else none
      match handleCommand rtcNow sender_timestamp (text.map Char.ofNat) with
      | (replyStr, eff) =>
        if eff = .reboot then ⟨client2, ack, none, true⟩
        else
          let replyText := strBytes replyStr
          if replyText.length > 0 then
            let ts2 := cliReplyTimestamp rtcNow sender_timestamp
            let temp := le32 ts2 ++ [0] ++ replyText
            let reply : Option OutPacket :=
              if poolOk then
                if client.out_path_len < 0 then
                  some ⟨.txtMsg, temp, client.secret, .flood, CLI_REPLY_DELAY_MILLIS⟩
                else
                  some ⟨.txtMsg, temp, client.secret, .direct client.out_path,
                    CLI_REPLY_DELAY_MILLIS⟩
              else none
            ⟨client2, ack, reply, false⟩
          else ⟨client2, ack, none, false⟩
    else ⟨client, none, none, false⟩
  else ⟨client, none, none, false⟩

end MyMesh

namespace Tables

/-- Combined table state of the chat layer and the repeater: the contact
table, the repeater's known-clients table and the group-channel table.
The counts `num_contacts`, `num_clients`, `num_channels` of the source
are the lengths of these lists (so they can never go below zero). -/
structure TState where
  contacts : List BaseChatMesh.ContactInfo
  clients : List MyMesh.ClientInfo
  channels : List BaseChatMesh.GroupChannel

/-- The table-mutating operations named by the claim: an inbound advert,
an explicit `addContact`, an inbound ANON_REQ (which calls `putClient`),
and `addChannel`. -/
inductive Op
  | advert (id : Bytes) (timestamp : Nat) (parsed : Option (String × Nat))
  | addContact (c : BaseChatMesh.ContactInfo)
  | anon (rtcNow : Nat) (poolOk : Bool) (sender : Bytes) (isRouteFlood : Bool)
      (packetPath : Bytes) (type : PayloadType) (data : Bytes)
  | addChannel (decoded : Bytes)

/-- Effect of one operation on the tables, via the embedded handlers. -/
def applyOp (ecdh : Bytes → Bytes → Bytes) (selfId : Bytes)
    (Hfull : Bytes → Bytes) (maxContacts maxChannels : Nat)
    (s : TState) : Op → TState
  | .advert id ts parsed =>
    { s with contacts :=
        (BaseChatMesh.onAdvertRecv ecdh selfId maxContacts s.contacts id ts parsed).contacts }
  | .addContact c =>
    { s with contacts :=
        (BaseChatMesh.addContact ecdh selfId maxContacts s.contacts c).1 }
  | .anon rtcNow poolOk sender isRouteFlood packetPath ty data =>
    { s with clients :=
        (MyMesh.onAnonDataRecv ecdh selfId rtcNow poolOk s.clients sender
          isRouteFlood packetPath ty data).clients }
  | .addChannel decoded =>
    { s with channels :=
        (BaseChatMesh.addChannel Hfull maxChannels s.channels decoded).1 }

/-- States reachable from the initial (all-empty) state — the constructor
sets `num_clients = 0` (main.cpp:348) and the other counts start at 0 —
by any sequence of table-mutating operations. -/
inductive Reachable (ecdh : Bytes → Bytes → Bytes) (selfId : Bytes)
    (Hfull : Bytes → Bytes) (maxContacts maxChannels : Nat) : TState → Prop
  | init : Reachable ecdh selfId Hfull maxContacts maxChannels ⟨[], [], []⟩
  | step (s : TState) (op : Op) :
      Reachable ecdh selfId Hfull maxContacts maxChannels s →
      Reachable ecdh selfId Hfull maxContacts maxChannels
        (applyOp ecdh selfId Hfull maxContacts maxChannels s op)

/-- The capacity invariant of the claim. -/
def inv (maxContacts maxChannels : Nat) (s : TState) : Prop :=
  s.contacts.length ≤ maxContacts ∧ s.clients.length ≤ MyMesh.MAX_CLIENTS ∧
    s.channels.length ≤ maxChannels

end Tables

/-- The spec's normative ACK digest input (section 6 of the spec):
`timestamp ‖ flags ‖ text ‖ sender_pub`. Stated from the spec's words, to
be compared with the two hash computations in the code. -/
def msgAckInput (timestamp flags : Nat) (text pub : Bytes) : Bytes :=
  le32 timestamp ++ [flags] ++ text ++ pub

theorem readLE32_le32_append (n : Nat) (r : Bytes) (h : n < 4294967296) :
    readLE32 (le32 n ++ r) = n := by
  simp only [readLE32, le32, List.cons_append, List.getD_cons_zero, List.getD_cons_succ]
  omega

theorem cstr_append_zeros (text : Bytes) (k : Nat) (h : ∀ b ∈ text, b ≠ 0) :
    cstr (text ++ List.replicate k 0) = text := by
  unfold cstr
  rw [List.takeWhile_append_of_pos (by intro a ha; simpa using h a ha)]
  cases k with
  | zero => simp
  | succ m => simp [List.replicate_succ]


/-- C3: `handleCommand` on the command text "clock sync" (main.cpp:375-382,
ESP32Board.h:54-59): with a sender timestamp strictly greater than the RTC
reading, the RTC is set (to `sender_timestamp + 1`, a value reflecting the
sender timestamp) and the reply is "OK - clock set"; with an equal or
lesser timestamp the reply is "ERR: clock cannot go backwards" and the
clock is untouched. -/
theorem c3_clock_sync (rtcNow sender_timestamp : Nat) :
    (sender_timestamp > rtcNow →
      MyMesh.handleCommand rtcNow sender_timestamp "clock sync".data
        = ("OK - clock set", .clockSet ((sender_timestamp + 1) % 4294967296)))
    ∧ (sender_timestamp ≤ rtcNow →
      MyMesh.handleCommand rtcNow sender_timestamp "clock sync".data
        = ("ERR: clock cannot go backwards", .noEffect)) := by
  have e : MyMesh.handleCommand rtcNow sender_timestamp "clock sync".data
      = if sender_timestamp > rtcNow
        then ("OK - clock set",
          MyMesh.CmdEffect.clockSet ((sender_timestamp + 1) % 4294967296))
        else ("ERR: clock cannot go backwards", MyMesh.CmdEffect.noEffect) := rfl
  constructor
  · intro h; rw [e, if_pos h]
  · intro h; rw [e, if_neg (by omega)]

/-- C3 witness: at RTC time 5, a "clock sync" with sender timestamp 10
sets the clock to 11 and replies "OK - clock set". -/
theorem c3_clock_sync_witness :
    MyMesh.handleCommand 5 10 "clock sync".data
      = ("OK - clock set", MyMesh.CmdEffect.clockSet 11) :=
  (c3_clock_sync 5 10).1 (by decide)

/-- C6: `sendMessage` (BaseChatMesh.cpp:180-213) fails when the text is
longer than `MAX_TEXT_LEN` or no packet can be built; otherwise the
payload is the 4-byte RTC time, one byte `attempt & 3`, then the text,
sent direct (returning `MSG_SEND_SENT_DIRECT`) when `out_path_len >= 0`
and flooded (returning `MSG_SEND_SENT_FLOOD`) otherwise. -/
theorem c6_send_message (H : Bytes → Bytes) (poolOk : Bool)
    (maxTextLen : Nat) (selfPub : Bytes) (rtcNow : Nat)
    (recipient : BaseChatMesh.ContactInfo) (attempt : Nat) (text : Bytes) :
    (text.length > maxTextLen →
      BaseChatMesh.sendMessage H poolOk maxTextLen selfPub rtcNow recipient attempt text
        = ⟨.failed, none, false⟩)
    ∧ (poolOk = false →
      BaseChatMesh.sendMessage H poolOk maxTextLen selfPub rtcNow recipient attempt text
        = ⟨.failed, none, false⟩)
    ∧ (text.length ≤ maxTextLen → poolOk = true →
      (recipient.out_path_len < 0 →
        BaseChatMesh.sendMessage H poolOk maxTextLen selfPub rtcNow recipient attempt text
          = ⟨.sentFlood, some ⟨.txtMsg, le32 rtcNow ++ [attempt % 4] ++ text,
              recipient.shared_secret, .flood, 0⟩, true⟩)
      ∧ (0 ≤ recipient.out_path_len →
        BaseChatMesh.sendMessage H poolOk maxTextLen selfPub rtcNow recipient attempt text
          = ⟨.sentDirect, some ⟨.txtMsg, le32 rtcNow ++ [attempt % 4] ++ text,
              recipient.shared_secret, .direct recipient.out_path, 0⟩, true⟩)) := by
  refine ⟨?_, ?_, ?_⟩
  · intro h
    simp [BaseChatMesh.sendMessage, BaseChatMesh.composeMsgPacket, h]
  · intro h
    subst h
    by_cases hl : text.length > maxTextLen <;>
      simp [BaseChatMesh.sendMessage, BaseChatMesh.composeMsgPacket, hl]
  · intro h hp
    subst hp
    constructor
    · intro hod
      simp only [BaseChatMesh.sendMessage, BaseChatMesh.composeMsgPacket]
      rw [if_neg (by omega)]
      simp [hod]
    · intro hod
      simp only [BaseChatMesh.sendMessage, BaseChatMesh.composeMsgPacket]
      rw [if_neg (by omega)]
      simp [show ¬(recipient.out_path_len < 0) from by omega]

/-- C6 witness: a 2-byte text to a recipient with an out-path is sent
direct with the claimed payload layout. -/
theorem c6_send_message_witness :
    BaseChatMesh.sendMessage (fun b => b.take 4) true 10 (List.replicate 32 1) 1000
      ⟨List.replicate 32 2, "bob", 1, 0, List.replicate 32 3, 2, [7, 8]⟩ 5 [65, 66]
      = ⟨.sentDirect, some ⟨.txtMsg, le32 1000 ++ [1] ++ [65, 66],
          List.replicate 32 3, .direct [7, 8], 0⟩, true⟩ :=
  ((c6_send_message (fun b => b.take 4) true 10 (List.replicate 32 1) 1000
    ⟨List.replicate 32 2, "bob", 1, 0, List.replicate 32 3, 2, [7, 8]⟩ 5 [65, 66]).2.2
    (by decide) rfl).2 (by decide)

/-- C7: an ANON_REQ whose payload after the 4-byte timestamp does not
begin with the admin password (main.cpp:207-210) produces no reply,
inserts no client-table entry and changes no stored client state. -/
theorem c7_wrong_password (ecdh : Bytes → Bytes → Bytes) (selfId : Bytes)
    (rtcNow : Nat) (poolOk : Bool) (clients : List MyMesh.ClientInfo)
    (sender : Bytes) (isRouteFlood : Bool) (packetPath : Bytes) (data : Bytes)
    (hpw : MyMesh.adminPassword.isPrefixOf (data.drop 4) = false) :
    MyMesh.onAnonDataRecv ecdh selfId rtcNow poolOk clients sender isRouteFlood
      packetPath .anonReq data = ⟨clients, none⟩ := by
  simp [MyMesh.onAnonDataRecv, hpw]

/-- C7 witness: a wrong-password ANON_REQ against a one-entry client
table leaves the table as it was and sends nothing. -/
theorem c7_wrong_password_witness :
    MyMesh.onAnonDataRecv (fun _ _ => List.replicate 32 9) (List.replicate 32 2)
      1000 true [⟨List.replicate 32 3, 5, List.replicate 32 4, -1, []⟩]
      (List.replicate 32 3) true [] .anonReq [0, 0, 0, 0, 1, 2, 3]
      = ⟨[⟨List.replicate 32 3, 5, List.replicate 32 4, -1, []⟩], none⟩ :=
  c7_wrong_password (fun _ _ => List.replicate 32 9) (List.replicate 32 2)
    1000 true [⟨List.replicate 32 3, 5, List.replicate 32 4, -1, []⟩]
    (List.replicate 32 3) true [] [0, 0, 0, 0, 1, 2, 3] (by decide)

/-- C1 counterexample: `BaseChatMesh::onPeerDataRecv` performs no
timestamp replay check (the guard at BaseChatMesh.cpp:95 is commented
out). For a contact whose stored timestamp is 10, an incoming TXT_MSG
whose payload timestamp is 5 (≤ 10) still produces an ACK packet and
still reaches the `onMessageRecv` upcall, contradicting the claim for
this handler. -/
theorem c1_counterexample :
    (BaseChatMesh.onPeerDataRecv (fun _ => [0, 0, 0, 0]) true
        ⟨List.replicate 32 7, "al", 1, 10, List.replicate 32 9, -1, []⟩
        false [] .txtMsg [5, 0, 0, 0, 0, 104]).ack.isSome = true
    ∧ (BaseChatMesh.onPeerDataRecv (fun _ => [0, 0, 0, 0]) true
        ⟨List.replicate 32 7, "al", 1, 10, List.replicate 32 9, -1, []⟩
        false [] .txtMsg [5, 0, 0, 0, 0, 104]).messageRecv = some (5, [104])
    ∧ readLE32 [5, 0, 0, 0, 0, 104] ≤ 10 := by
  refine ⟨by decide, by decide, by decide⟩

/-- C1 (amended): the repeater's `MyMesh::onPeerDataRecv`
(main.cpp:236-324) does drop replays: for a REQ or TXT_MSG whose payload
timestamp is ≤ the client's stored `last_timestamp`, no ACK is created,
no reply is sent, and the client's stored state is unchanged.
(`BaseChatMesh::onPeerDataRecv` has no such check, see the
counterexample.) -/
theorem c1_replay_drop (H : Bytes → Bytes) (poolOk : Bool) (rtcNow : Nat)
    (stats : Bytes) (client : MyMesh.ClientInfo) (isRouteFlood : Bool)
    (packetPath : Bytes) (type : PayloadType) (data : Bytes)
    (hty : type = PayloadType.req ∨ type = PayloadType.txtMsg)
    (hts : readLE32 data ≤ client.last_timestamp) :
    MyMesh.onPeerDataRecv H poolOk rtcNow stats client isRouteFlood packetPath type data
      = ⟨client, none, none, false⟩ := by
  rcases hty with h | h <;> subst h
  · simp only [MyMesh.onPeerDataRecv]
    rw [if_pos trivial, if_neg (by omega)]
  · simp only [MyMesh.onPeerDataRecv]
    rw [if_neg (by simp)]
    by_cases hl : data.length > 5
    · rw [if_pos (show True ∧ data.length > 5 from ⟨trivial, hl⟩)]
      by_cases hf : data.getD 4 0 ≠ 0
      · rw [if_pos hf]
      · rw [if_neg hf, if_neg (by omega)]
    · rw [if_neg (by simp [hl])]

/-- C1 witness: a REQ with timestamp 5 against a client whose stored
timestamp is 10 is dropped without any output or state change. -/
theorem c1_replay_drop_witness :
    MyMesh.onPeerDataRecv (fun _ => []) true 0 [] ⟨List.replicate 32 1, 10, [], -1, []⟩
      false [] .req [5, 0, 0, 0, 1]
      = ⟨⟨List.replicate 32 1, 10, [], -1, []⟩, none, none, false⟩ :=
  c1_replay_drop (fun _ => []) true 0 [] ⟨List.replicate 32 1, 10, [], -1, []⟩
    false [] .req [5, 0, 0, 0, 1] (Or.inl rfl) (by decide)

/-- Helper for C9: the collision-avoiding CLI reply timestamp never
equals the sender timestamp (the increment wraps as `uint32_t`). -/
theorem cliReplyTimestamp_ne (rtcNow ts : Nat) (h : rtcNow < 4294967296) :
    MyMesh.cliReplyTimestamp rtcNow ts ≠ ts := by
  unfold MyMesh.cliReplyTimestamp
  split_ifs with he
  · subst he; omega
  · exact he

/-- Helper for C9: the CLI reply timestamp stays a `uint32_t` value. -/
theorem cliReplyTimestamp_lt (rtcNow ts : Nat) (h : rtcNow < 4294967296) :
    MyMesh.cliReplyTimestamp rtcNow ts < 4294967296 := by
  unfold MyMesh.cliReplyTimestamp
  split_ifs <;> omega

/-- C9 counterexample: the repeater's CLI reply is built with
`createDatagram(PAYLOAD_TYPE_TXT_MSG, ...)` (main.cpp:311), not
`PAYLOAD_TYPE_RESPONSE`: for a concrete "ver" CLI text command the reply
packet's payload type is TXT_MSG, which is not RESPONSE as the claim
states. -/
theorem c9_counterexample :
    ((MyMesh.onPeerDataRecv (fun _ => [0, 0, 0, 0]) true 100 []
        ⟨List.replicate 32 1, 0, [], -1, []⟩ false [] .txtMsg
        [5, 0, 0, 0, 0, 118, 101, 114]).reply.map OutPacket.ptype
      = some PayloadType.txtMsg)
    ∧ PayloadType.txtMsg ≠ PayloadType.response := by
  refine ⟨by decide, by decide⟩

/-- C9 (amended): when the repeater handles a CLI text command (TXT_MSG,
flags 0, strictly newer timestamp) and the command handler produces a
non-empty reply, the reply is sent as a TXT_MSG (not RESPONSE) datagram
whose 4-byte timestamp field is never equal to the sender's timestamp:
the current RTC time is used, incremented by 1 (with `uint32_t` wrap) on
collision with the sender timestamp (main.cpp:296-318). -/
theorem c9_cli_reply (H : Bytes → Bytes) (poolOk : Bool) (rtcNow : Nat)
    (stats : Bytes) (client : MyMesh.ClientInfo) (isRouteFlood : Bool)
    (packetPath : Bytes) (data : Bytes) (pkt : OutPacket)
    (hrtc : rtcNow < 4294967296)
    (hr : (MyMesh.onPeerDataRecv H poolOk rtcNow stats client isRouteFlood packetPath
        PayloadType.txtMsg data).reply = some pkt) :
    pkt.ptype = PayloadType.txtMsg
    ∧ pkt.payload.take 4 = le32 (MyMesh.cliReplyTimestamp rtcNow (readLE32 data))
    ∧ readLE32 pkt.payload ≠ readLE32 data := by
  simp only [MyMesh.onPeerDataRecv] at hr
  rw [if_neg (by simp)] at hr
  by_cases hl : data.length > 5
  case neg => rw [if_neg (by simp [hl])] at hr; simp at hr
  rw [if_pos (show True ∧ data.length > 5 from ⟨trivial, hl⟩)] at hr
  by_cases hf : data.getD 4 0 ≠ 0
  case pos => rw [if_pos hf] at hr; simp at hr
  rw [if_neg hf] at hr
  by_cases hts : readLE32 data > client.last_timestamp
  case neg => rw [if_neg hts] at hr; simp at hr
  rw [if_pos hts] at hr
  by_cases hrb : (MyMesh.handleCommand rtcNow (readLE32 data)
      (List.map Char.ofNat (cstr (List.drop 5 data)))).2 = MyMesh.CmdEffect.reboot
  case pos => rw [if_pos hrb] at hr; simp at hr
  rw [if_neg hrb] at hr
  by_cases hnz : (MyMesh.strBytes (MyMesh.handleCommand rtcNow (readLE32 data)
      (List.map Char.ofNat (cstr (List.drop 5 data)))).1).length > 0
  case neg => rw [if_neg hnz] at hr; simp at hr
  rw [if_pos hnz] at hr
  simp only [] at hr
  cases poolOk with
  | false => simp at hr
  | true =>
    rw [if_pos rfl] at hr
    have hlt := cliReplyTimestamp_lt rtcNow (readLE32 data) hrtc
    have hne := cliReplyTimestamp_ne rtcNow (readLE32 data) hrtc
    by_cases hop : client.out_path_len < 0
    · rw [if_pos hop] at hr
      have hp := Option.some.inj hr
      subst hp
      refine ⟨rfl, ?_, ?_⟩
      · simp [le32]
      · rw [List.append_assoc, readLE32_le32_append _ _ hlt]
        exact hne
    · rw [if_neg hop] at hr
      have hp := Option.some.inj hr
      subst hp
      refine ⟨rfl, ?_, ?_⟩
      · simp [le32]
      · rw [List.append_assoc, readLE32_le32_append _ _ hlt]
        exact hne

/-- C9 witness: the concrete "ver" CLI command at RTC time 100 with
sender timestamp 5 yields a TXT_MSG reply whose timestamp field is 100,
different from 5. -/
theorem c9_cli_reply_witness :
    (⟨PayloadType.txtMsg,
        [100, 0, 0, 0, 0, 118, 49, 32, 40, 98, 117, 105, 108, 100, 58, 32,
         50, 52, 32, 74, 97, 110, 32, 50, 48, 50, 53, 41],
        [], SendRoute.flood, 1500⟩ : OutPacket).ptype = PayloadType.txtMsg
    ∧ (⟨PayloadType.txtMsg,
        [100, 0, 0, 0, 0, 118, 49, 32, 40, 98, 117, 105, 108, 100, 58, 32,
         50, 52, 32, 74, 97, 110, 32, 50, 48, 50, 53, 41],
        [], SendRoute.flood, 1500⟩ : OutPacket).payload.take 4
      = le32 (MyMesh.cliReplyTimestamp 100 (readLE32 [5, 0, 0, 0, 0, 118, 101, 114]))
    ∧ readLE32 (⟨PayloadType.txtMsg,
        [100, 0, 0, 0, 0, 118, 49, 32, 40, 98, 117, 105, 108, 100, 58, 32,
         50, 52, 32, 74, 97, 110, 32, 50, 48, 50, 53, 41],
        [], SendRoute.flood, 1500⟩ : OutPacket).payload
      ≠ readLE32 [5, 0, 0, 0, 0, 118, 101, 114] :=
  c9_cli_reply (fun _ => [0, 0, 0, 0]) true 100 []
    ⟨List.replicate 32 1, 0, [], -1, []⟩ false []
    [5, 0, 0, 0, 0, 118, 101, 114] _ (by decide) (by decide)

/-- C2 counterexample: in `onAnonDataRecv` the source calls `putClient`
before the replay check (main.cpp:179-182), so an ANON_REQ with the
correct password, an unknown sender and timestamp 0 (which is ≤ the fresh
entry's `last_timestamp = 0` and is therefore dropped with no reply)
still inserts a new entry into the client table, contradicting the
claim's "no new client entry is inserted". -/
theorem c2_counterexample :
    ((MyMesh.onAnonDataRecv (fun _ _ => List.replicate 32 9) (List.replicate 32 2)
        1000 true [] (List.replicate 32 3) true [] .anonReq
        ([0, 0, 0, 0] ++ MyMesh.adminPassword)).clients.length = 1)
    ∧ ((MyMesh.onAnonDataRecv (fun _ _ => List.replicate 32 9) (List.replicate 32 2)
        1000 true [] (List.replicate 32 3) true [] .anonReq
        ([0, 0, 0, 0] ++ MyMesh.adminPassword)).reply = none) := by
  refine ⟨by decide, by decide⟩

/-- C2 (amended): for an ANON_REQ with the correct admin password, with
`putClient` resolving the sender to entry `c` at index `i` of the
post-`putClient` table `cs`: if the timestamp is strictly greater than
`c.last_timestamp`, the entry's `last_timestamp` is set to the timestamp
and a reply whose payload is the current time followed by "OK", encrypted
under the stored shared secret, is sent via path-return flood when the
request was a flood, else direct when an out-path is known, else flood;
if the timestamp is ≤ `c.last_timestamp` the request produces no reply
and no timestamp update, but the table is left as `putClient` produced it
— in particular a previously-unknown sender has already been inserted
(with `last_timestamp = 0`). -/
theorem c2_admin_login (ecdh : Bytes → Bytes → Bytes) (selfId : Bytes)
    (rtcNow : Nat) (poolOk : Bool) (clients : List MyMesh.ClientInfo)
    (sender : Bytes) (isRouteFlood : Bool) (packetPath : Bytes) (data : Bytes)
    (cs : List MyMesh.ClientInfo) (i : Nat) (c : MyMesh.ClientInfo)
    (hpw : MyMesh.adminPassword.isPrefixOf (data.drop 4) = true)
    (hput : MyMesh.putClient ecdh selfId clients sender = (cs, some i))
    (hc : cs[i]? = some c) :
    (readLE32 data ≤ c.last_timestamp →
      MyMesh.onAnonDataRecv ecdh selfId rtcNow poolOk clients sender isRouteFlood
        packetPath .anonReq data = ⟨cs, none⟩)
    ∧ (readLE32 data > c.last_timestamp →
      MyMesh.onAnonDataRecv ecdh selfId rtcNow poolOk clients sender isRouteFlood
        packetPath .anonReq data
        = ⟨cs.set i { c with last_timestamp := readLE32 data },
           if poolOk then
             some ⟨.response, le32 rtcNow ++ MyMesh.okBytes, c.secret,
               if isRouteFlood then .pathReturnFlood packetPath
               else if c.out_path_len ≥ 0 then .direct c.out_path
               else .flood, 0⟩
           else none⟩) := by
  constructor
  · intro hts
    simp only [MyMesh.onAnonDataRecv, hpw, hput, hc]
    simp [hts]
  · intro hts
    simp only [MyMesh.onAnonDataRecv, hpw, hput, hc]
    have hn : ¬(readLE32 data ≤ c.last_timestamp) := by omega
    cases poolOk <;> cases isRouteFlood <;> by_cases hop : c.out_path_len ≥ 0 <;>
      simp [hn, hop]

/-- C2 witness: a known client with stored timestamp 5 logs in again with
timestamp 9 over a flood: the stored timestamp becomes 9 and the OK reply
goes out as a path-return. -/
theorem c2_admin_login_witness :
    MyMesh.onAnonDataRecv (fun _ _ => List.replicate 32 9) (List.replicate 32 2)
      1000 true [⟨List.replicate 32 3, 5, List.replicate 32 4, -1, []⟩]
      (List.replicate 32 3) true [] .anonReq ([9, 0, 0, 0] ++ MyMesh.adminPassword)
      = ⟨[⟨List.replicate 32 3, 9, List.replicate 32 4, -1, []⟩],
         some ⟨.response, le32 1000 ++ MyMesh.okBytes, List.replicate 32 4,
           .pathReturnFlood [], 0⟩⟩ := by
  have h := (c2_admin_login (fun _ _ => List.replicate 32 9) (List.replicate 32 2)
    1000 true [⟨List.replicate 32 3, 5, List.replicate 32 4, -1, []⟩]
    (List.replicate 32 3) true [] ([9, 0, 0, 0] ++ MyMesh.adminPassword)
    [⟨List.replicate 32 3, 5, List.replicate 32 4, -1, []⟩] 0
    ⟨List.replicate 32 3, 5, List.replicate 32 4, -1, []⟩
    (by decide) (by decide) rfl).2 (by decide)
  exact h.trans (by decide)

/-- C4: the receiver-side ACK hash of `BaseChatMesh::onPeerDataRecv`
(BaseChatMesh.cpp:99-100), the sender-side `expected_ack` of
`composeMsgPacket` (BaseChatMesh.cpp:190-192) and the repeater's
receiver-side ACK hash (main.cpp:284-285) are all the 4-byte truncated
SHA-256 (`H`) of `timestamp ‖ flags ‖ text ‖ sender_pub` with
`flags = attempt & 3`; hence for the same timestamp, attempt, text and
sender key the receiver-computed ACK payload equals the sender's
expected ACK. `k` models the zero padding the decryptor may leave after
the text. -/
theorem c4_ack_agreement (H : Bytes → Bytes) (ts attempt maxTextLen k rtcNow : Nat)
    (stats text : Bytes) (contact : BaseChatMesh.ContactInfo)
    (client : MyMesh.ClientInfo) (isRouteFlood : Bool) (packetPath : Bytes)
    (htext : ∀ b ∈ text, b ≠ 0) (hne : 0 < text.length + k)
    (hlen : text.length ≤ maxTextLen) :
    ((BaseChatMesh.onPeerDataRecv H true contact isRouteFlood packetPath .txtMsg
        (le32 ts ++ [attempt % 4] ++ text ++ List.replicate k 0)).ack.map
          OutPacket.payload
      = some (H (msgAckInput ts (attempt % 4) text contact.id)))
    ∧ ((BaseChatMesh.composeMsgPacket H true maxTextLen contact.id ts attempt text).2
      = H (msgAckInput ts (attempt % 4) text contact.id))
    ∧ (readLE32 (le32 ts ++ [0] ++ text ++ List.replicate k 0) > client.last_timestamp →
      (MyMesh.onPeerDataRecv H true rtcNow stats client isRouteFlood packetPath .txtMsg
          (le32 ts ++ [0] ++ text ++ List.replicate k 0)).ack.map OutPacket.payload
        = some (H (msgAckInput ts 0 text client.id))) := by
  refine ⟨?_, ?_, ?_⟩
  · have h5 : (le32 ts ++ [attempt % 4] ++ text ++ List.replicate k 0).length > 5 := by
      simp [le32]; omega
    have hdrop : List.drop 5 (le32 ts ++ [attempt % 4] ++ text ++ List.replicate k 0)
        = text ++ List.replicate k 0 := rfl
    have hcs : cstr (List.drop 5 (le32 ts ++ [attempt % 4] ++ text
        ++ List.replicate k 0)) = text := by
      rw [hdrop]; exact cstr_append_zeros text k htext
    have hgd : (le32 ts ++ [attempt % 4] ++ text ++ List.replicate k 0).getD 4 0
        = attempt % 4 := rfl
    have htk : (le32 ts ++ [attempt % 4] ++ text ++ List.replicate k 0).take
        (5 + text.length) = le32 ts ++ [attempt % 4] ++ text :=
      List.take_left' (by simp [le32]; omega)
    have hq : (attempt % 4) / 4 = 0 := by omega
    simp only [BaseChatMesh.onPeerDataRecv, hgd, hcs, htk, hq, h5, and_self, if_true,
      eq_self_iff_true]
    cases isRouteFlood
    · by_cases hop : contact.out_path_len < 0
      · rw [if_neg (show ¬((false : Bool) = true) from by simp), if_pos hop]
        simp [msgAckInput, List.append_assoc]
      · rw [if_neg (show ¬((false : Bool) = true) from by simp), if_neg hop]
        simp [msgAckInput, List.append_assoc]
    · rw [if_pos rfl]
      simp [msgAckInput, List.append_assoc]
  · simp only [BaseChatMesh.composeMsgPacket]
    rw [if_neg (by omega)]
    simp [msgAckInput, List.append_assoc]
  · intro hts
    have h5 : (le32 ts ++ [0] ++ text ++ List.replicate k 0).length > 5 := by
      simp [le32]; omega
    have hdrop : List.drop 5 (le32 ts ++ [0] ++ text ++ List.replicate k 0)
        = text ++ List.replicate k 0 := rfl
    have hcs : cstr (List.drop 5 (le32 ts ++ [0] ++ text ++ List.replicate k 0))
        = text := by
      rw [hdrop]; exact cstr_append_zeros text k htext
    have hgd : (le32 ts ++ [0] ++ text ++ List.replicate k 0).getD 4 0 = 0 := rfl
    have htk : (le32 ts ++ [0] ++ text ++ List.replicate k 0).take
        (5 + text.length) = le32 ts ++ [0] ++ text :=
      List.take_left' (by simp [le32]; omega)
    simp only [MyMesh.onPeerDataRecv, hgd, hcs, htk, h5, hts, and_self, if_true,
      eq_self_iff_true]
    rw [if_neg (show ¬(PayloadType.txtMsg = PayloadType.req) from by simp)]
    rw [if_neg (show ¬((0 : Nat) ≠ 0) from by omega)]
    generalize MyMesh.handleCommand rtcNow
      (readLE32 (le32 ts ++ [0] ++ text ++ List.replicate k 0))
      (List.map Char.ofNat text) = rs
    split_ifs <;> simp [msgAckInput, List.append_assoc]

/-- C4 witness: with a one-byte text "h", attempt 1 and matching keys,
the sender's expected ACK equals the receiver's ACK payload digest input
at a concrete instance. -/
theorem c4_ack_agreement_witness :
    ((BaseChatMesh.onPeerDataRecv (fun b => b.take 4) true
        ⟨List.replicate 32 5, "al", 1, 0, List.replicate 32 6, -1, []⟩ true []
        .txtMsg (le32 7 ++ [1 % 4] ++ [104] ++ List.replicate 1 0)).ack.map
          OutPacket.payload
      = some ((fun b => b.take 4) (msgAckInput 7 (1 % 4) [104] (List.replicate 32 5))))
    ∧ ((BaseChatMesh.composeMsgPacket (fun b => b.take 4) true 10
        (List.replicate 32 5) 7 1 [104]).2
      = (fun b => b.take 4) (msgAckInput 7 (1 % 4) [104] (List.replicate 32 5))) := by
  have h := c4_ack_agreement (fun b => b.take 4) 7 1 10 1 0 [] [104]
    ⟨List.replicate 32 5, "al", 1, 0, List.replicate 32 6, -1, []⟩
    ⟨List.replicate 32 5, 0, [], -1, []⟩ true []
    (by decide) (by decide) (by decide)
  exact ⟨h.1, h.2.1⟩

/-- C5: `onAdvertRecv` (BaseChatMesh.cpp:15-56). If the app_data does not
parse or lacks a name, or the sender is a known contact whose stored
`last_advert_timestamp` is ≥ the advert timestamp, or the sender is
unknown and the table is full, the contact table is unchanged and
`onDiscoveredContact` is not called. Otherwise the first matching contact
is updated (name, type, timestamp) or a fresh one appended (ECDH secret
computed, `out_path_len = -1`), and `onDiscoveredContact` is called with
`is_new` true exactly for the fresh contact. -/
theorem c5_advert (ecdh : Bytes → Bytes → Bytes) (selfId : Bytes) (maxContacts : Nat)
    (contacts : List BaseChatMesh.ContactInfo) (id : Bytes) (timestamp : Nat)
    (parsed : Option (String × Nat)) :
    (parsed = none →
      BaseChatMesh.onAdvertRecv ecdh selfId maxContacts contacts id timestamp parsed
        = ⟨contacts, none⟩)
    ∧ (∀ nm ty i c, parsed = some (nm, ty) →
        contacts.findIdx? (fun x => decide (x.id = id)) = some i →
        contacts[i]? = some c →
        (timestamp ≤ c.last_advert_timestamp →
          BaseChatMesh.onAdvertRecv ecdh selfId maxContacts contacts id timestamp parsed
            = ⟨contacts, none⟩)
        ∧ (timestamp > c.last_advert_timestamp →
          BaseChatMesh.onAdvertRecv ecdh selfId maxContacts contacts id timestamp parsed
            = ⟨contacts.set i
                { c with name := nm, type := ty, last_advert_timestamp := timestamp },
               some ({ c with name := nm, type := ty, last_advert_timestamp := timestamp },
                 false)⟩))
    ∧ (∀ nm ty, parsed = some (nm, ty) →
        contacts.findIdx? (fun x => decide (x.id = id)) = none →
        (maxContacts ≤ contacts.length →
          BaseChatMesh.onAdvertRecv ecdh selfId maxContacts contacts id timestamp parsed
            = ⟨contacts, none⟩)
        ∧ (contacts.length < maxContacts →
          BaseChatMesh.onAdvertRecv ecdh selfId maxContacts contacts id timestamp parsed
            = ⟨contacts ++ [⟨id, nm, ty, timestamp, ecdh selfId id, -1, []⟩],
               some (⟨id, nm, ty, timestamp, ecdh selfId id, -1, []⟩, true)⟩)) := by
  refine ⟨?_, ?_, ?_⟩
  · intro hp
    subst hp
    rfl
  · intro nm ty i c hp hf hc
    subst hp
    constructor
    · intro hts
      simp only [BaseChatMesh.onAdvertRecv, hf, hc]
      rw [if_pos hts]
    · intro hts
      simp only [BaseChatMesh.onAdvertRecv, hf, hc]
      rw [if_neg (by omega)]
  · intro nm ty hp hf
    subst hp
    constructor
    · intro hfull
      simp only [BaseChatMesh.onAdvertRecv, hf]
      rw [if_neg (by omega)]
    · intro hroom
      simp only [BaseChatMesh.onAdvertRecv, hf]
      rw [if_pos hroom]

/-- C5 witness: a valid advert from an unknown sender with room in the
table creates the contact and reports it as new. -/
theorem c5_advert_witness :
    BaseChatMesh.onAdvertRecv (fun _ _ => List.replicate 32 8) (List.replicate 32 2) 4 []
      (List.replicate 32 3) 100 (some ("bob", 1))
      = ⟨[⟨List.replicate 32 3, "bob", 1, 100, List.replicate 32 8, -1, []⟩],
         some (⟨List.replicate 32 3, "bob", 1, 100, List.replicate 32 8, -1, []⟩, true)⟩ := by
  have h := ((c5_advert (fun _ _ => List.replicate 32 8) (List.replicate 32 2) 4 []
    (List.replicate 32 3) 100 (some ("bob", 1))).2.2 "bob" 1 rfl (by decide)).2
    (by decide)
  exact h.trans (by decide)

/-- C8: the armed `txt_send_timeout` is cancelled before firing only by a
matching ACK: `onAckRecv` (BaseChatMesh.cpp:147-152) clears it exactly
when the 4 ACK bytes match the awaited hash, `onPeerPathRecv`
(BaseChatMesh.cpp:123-145) exactly when the piggy-backed extra is an ACK
of ≥ 4 bytes whose first 4 bytes match; and when the armed timer expires,
`loop` (BaseChatMesh.cpp:300-308) invokes `onSendTimeout` exactly once,
clears the timer (so an immediately following `loop` does not fire
again), and sends no packet (no retransmission). -/
theorem c8_ack_timeout_cancellation :
    (∀ (s : BaseChatMesh.AckWaitState) (ack : Bytes), s.txt_send_timeout ≠ 0 →
      (((BaseChatMesh.onAckRecv s ack).1.txt_send_timeout = 0) ↔ ack = s.expected_ack))
    ∧ (∀ (s : BaseChatMesh.AckWaitState) (from_ : BaseChatMesh.ContactInfo)
        (path : Bytes) (et : PayloadType) (extra : Bytes), s.txt_send_timeout ≠ 0 →
      (((BaseChatMesh.onPeerPathRecv s from_ path et extra).2.1.txt_send_timeout = 0) ↔
        (et = PayloadType.ack ∧ extra.length ≥ 4 ∧ extra.take 4 = s.expected_ack)))
    ∧ (∀ (s : BaseChatMesh.AckWaitState) (passed : Bool), s.txt_send_timeout ≠ 0 →
        passed = true →
      BaseChatMesh.loop s passed = ({ s with txt_send_timeout := 0 }, true, [])
      ∧ ∀ p2, BaseChatMesh.loop { s with txt_send_timeout := 0 } p2
          = ({ s with txt_send_timeout := 0 }, false, []))
    ∧ (∀ (s : BaseChatMesh.AckWaitState), BaseChatMesh.loop s false = (s, false, [])) := by
  refine ⟨?_, ?_, ?_, ?_⟩
  · intro s ack hne
    simp only [BaseChatMesh.onAckRecv, BaseChatMesh.processAck]
    split_ifs with h
    · simp only [decide_eq_true_eq] at h
      simp [h]
    · simp only [decide_eq_true_eq] at h
      simp [h, hne]
  · intro s from_ path et extra hne
    simp only [BaseChatMesh.onPeerPathRecv, BaseChatMesh.processAck]
    split_ifs with h
    · obtain ⟨h1, h2, h3⟩ := h
      simp only [decide_eq_true_eq] at h3
      simp [h1, h2, h3]
    · simp only [decide_eq_true_eq] at h
      constructor
      · intro h0
        exact absurd h0 hne
      · intro hr
        exact absurd ⟨hr.1, hr.2.1, hr.2.2⟩ h
  · intro s passed hne hp
    subst hp
    constructor
    · simp [BaseChatMesh.loop, hne]
    · intro p2
      simp [BaseChatMesh.loop]
  · intro s
    simp [BaseChatMesh.loop]

/-- C8 witness: with an armed timer (99) awaiting [1,2,3,4], a
non-matching ACK leaves the timer armed (the iff instance), and an
expired timer fires exactly once, clearing the timer without sending. -/
theorem c8_ack_timeout_cancellation_witness :
    ((BaseChatMesh.onAckRecv ⟨99, [1, 2, 3, 4]⟩ [9, 9, 9, 9]).1.txt_send_timeout = 0
      ↔ [9, 9, 9, 9] = (⟨99, [1, 2, 3, 4]⟩ : BaseChatMesh.AckWaitState).expected_ack)
    ∧ BaseChatMesh.loop ⟨99, [1, 2, 3, 4]⟩ true = (⟨0, [1, 2, 3, 4]⟩, true, []) :=
  ⟨c8_ack_timeout_cancellation.1 ⟨99, [1, 2, 3, 4]⟩ [9, 9, 9, 9] (by decide),
   (c8_ack_timeout_cancellation.2.2.1 ⟨99, [1, 2, 3, 4]⟩ true (by decide) rfl).1⟩

/-- Helper for C10: `onAdvertRecv` grows the contact table by at most one
entry, and only after checking `num_contacts < MAX_CONTACTS`. -/
theorem onAdvertRecv_contacts_length (ecdh : Bytes → Bytes → Bytes) (selfId : Bytes)
    (maxContacts : Nat) (contacts : List BaseChatMesh.ContactInfo) (id : Bytes)
    (timestamp : Nat) (parsed : Option (String × Nat)) :
    (BaseChatMesh.onAdvertRecv ecdh selfId maxContacts contacts id timestamp
        parsed).contacts.length ≤ contacts.length + 1
    ∧ (contacts.length ≤ maxContacts →
      (BaseChatMesh.onAdvertRecv ecdh selfId maxContacts contacts id timestamp
        parsed).contacts.length ≤ maxContacts) := by
  unfold BaseChatMesh.onAdvertRecv
  rcases parsed with _ | ⟨nm, ty⟩
  · exact ⟨Nat.le_succ _, fun h => h⟩
  · rcases hf : contacts.findIdx? (fun c => decide (c.id = id)) with _ | i <;>
      simp only [hf]
    · split_ifs with hroom
      · constructor
        · simp
        · intro hinv
          simp
          omega
      · exact ⟨Nat.le_succ _, fun h => h⟩
    · rcases hc : contacts[i]? with _ | c <;> simp only [hc]
      · exact ⟨Nat.le_succ _, fun h => h⟩
      · split_ifs with hts
        · exact ⟨Nat.le_succ _, fun h => h⟩
        · constructor
          · simp
          · intro hinv
            simpa using hinv

/-- Helper for C10: `addContact` grows the table by at most one entry and
respects `MAX_CONTACTS`. -/
theorem addContact_length (ecdh : Bytes → Bytes → Bytes) (selfId : Bytes)
    (maxContacts : Nat) (contacts : List BaseChatMesh.ContactInfo)
    (contact : BaseChatMesh.ContactInfo) :
    (BaseChatMesh.addContact ecdh selfId maxContacts contacts contact).1.length
      ≤ contacts.length + 1
    ∧ (contacts.length ≤ maxContacts →
      (BaseChatMesh.addContact ecdh selfId maxContacts contacts contact).1.length
        ≤ maxContacts) := by
  unfold BaseChatMesh.addContact
  split_ifs with hroom
  · exact ⟨by simp, fun _ => by simp; omega⟩
  · exact ⟨Nat.le_succ _, fun h => h⟩

/-- Helper for C10: `putClient` grows the client table by at most one
entry and respects `MAX_CLIENTS`. -/
theorem putClient_length (ecdh : Bytes → Bytes → Bytes) (selfId : Bytes)
    (clients : List MyMesh.ClientInfo) (id : Bytes) :
    (MyMesh.putClient ecdh selfId clients id).1.length ≤ clients.length + 1
    ∧ (clients.length ≤ MyMesh.MAX_CLIENTS →
      (MyMesh.putClient ecdh selfId clients id).1.length ≤ MyMesh.MAX_CLIENTS) := by
  unfold MyMesh.putClient
  rcases hf : clients.findIdx? (fun c => decide (c.id = id)) with _ | i <;>
    simp only [hf]
  · split_ifs with hroom
    · exact ⟨by simp, fun _ => by simp; omega⟩
    · exact ⟨Nat.le_succ _, fun h => h⟩
  · exact ⟨Nat.le_succ _, fun h => h⟩

/-- Helper for C10: `onAnonDataRecv` grows the client table by at most one
entry (via `putClient`) and respects `MAX_CLIENTS`. -/
theorem onAnonDataRecv_clients_length (ecdh : Bytes → Bytes → Bytes) (selfId : Bytes)
    (rtcNow : Nat) (poolOk : Bool) (clients : List MyMesh.ClientInfo)
    (sender : Bytes) (isRouteFlood : Bool) (packetPath : Bytes)
    (type : PayloadType) (data : Bytes) :
    (MyMesh.onAnonDataRecv ecdh selfId rtcNow poolOk clients sender isRouteFlood
        packetPath type data).clients.length ≤ clients.length + 1
    ∧ (clients.length ≤ MyMesh.MAX_CLIENTS →
      (MyMesh.onAnonDataRecv ecdh selfId rtcNow poolOk clients sender isRouteFlood
        packetPath type data).clients.length ≤ MyMesh.MAX_CLIENTS) := by
  simp only [MyMesh.onAnonDataRecv]
  by_cases h1 : type = PayloadType.anonReq
  case neg =>
    rw [if_neg h1]
    exact ⟨Nat.le_succ _, fun h => h⟩
  rw [if_pos h1]
  by_cases h2 : MyMesh.adminPassword.isPrefixOf (data.drop 4) = true
  case neg =>
    rw [if_neg h2]
    exact ⟨Nat.le_succ _, fun h => h⟩
  rw [if_pos h2]
  rcases hput : MyMesh.putClient ecdh selfId clients sender with ⟨cs, io⟩
  have hlen := putClient_length ecdh selfId clients sender
  rw [hput] at hlen
  rcases io with _ | i
  · exact hlen
  · rcases hc : cs[i]? with _ | c <;> simp only [hc]
    · exact hlen
    · by_cases hts : readLE32 data ≤ c.last_timestamp
      · rw [if_pos hts]
        exact hlen
      · rw [if_neg hts]
        exact ⟨by simpa using hlen.1, fun hinv => by simpa using hlen.2 hinv⟩

/-- Helper for C10: `addChannel` grows the channel table by at most one
entry, only on a successful 16/32-byte decode, and respects
`MAX_GROUP_CHANNELS`. -/
theorem addChannel_length (Hfull : Bytes → Bytes) (maxChannels : Nat)
    (channels : List BaseChatMesh.GroupChannel) (decoded : Bytes) :
    (BaseChatMesh.addChannel Hfull maxChannels channels decoded).1.length
      ≤ channels.length + 1
    ∧ (channels.length ≤ maxChannels →
      (BaseChatMesh.addChannel Hfull maxChannels channels decoded).1.length
        ≤ maxChannels) := by
  unfold BaseChatMesh.addChannel
  split_ifs with hroom hdec
  · exact ⟨by simp, fun _ => by simp; omega⟩
  · exact ⟨Nat.le_succ _, fun h => h⟩
  · exact ⟨Nat.le_succ _, fun h => h⟩

/-- Helper for C10: every operation preserves the capacity invariant. -/
theorem applyOp_inv (ecdh : Bytes → Bytes → Bytes) (selfId : Bytes)
    (Hfull : Bytes → Bytes) (maxContacts maxChannels : Nat) (s : Tables.TState)
    (op : Tables.Op) (h : Tables.inv maxContacts maxChannels s) :
    Tables.inv maxContacts maxChannels
      (Tables.applyOp ecdh selfId Hfull maxContacts maxChannels s op) := by
  obtain ⟨h1, h2, h3⟩ := h
  cases op with
  | advert id ts parsed =>
    exact ⟨(onAdvertRecv_contacts_length ecdh selfId maxContacts s.contacts
      id ts parsed).2 h1, h2, h3⟩
  | addContact c =>
    exact ⟨(addContact_length ecdh selfId maxContacts s.contacts c).2 h1, h2, h3⟩
  | anon rtcNow poolOk sender isRouteFlood packetPath ty data =>
    exact ⟨h1, (onAnonDataRecv_clients_length ecdh selfId rtcNow poolOk s.clients
      sender isRouteFlood packetPath ty data).2 h2, h3⟩
  | addChannel decoded =>
    exact ⟨h1, h2, (addChannel_length Hfull maxChannels s.channels decoded).2 h3⟩

/-- C10: from the initial empty tables, every reachable state satisfies
`num_contacts ≤ MAX_CONTACTS`, `num_clients ≤ MAX_CLIENTS` and
`num_channels ≤ MAX_GROUP_CHANNELS` (the counts are list lengths, so they
can never go below zero), and every single operation grows each count by
at most one. -/
theorem c10_table_capacity (ecdh : Bytes → Bytes → Bytes) (selfId : Bytes)
    (Hfull : Bytes → Bytes) (maxContacts maxChannels : Nat) (s : Tables.TState)
    (hreach : Tables.Reachable ecdh selfId Hfull maxContacts maxChannels s) :
    Tables.inv maxContacts maxChannels s
    ∧ ∀ op : Tables.Op,
      (Tables.applyOp ecdh selfId Hfull maxContacts maxChannels s op).contacts.length
          ≤ s.contacts.length + 1
      ∧ (Tables.applyOp ecdh selfId Hfull maxContacts maxChannels s op).clients.length
          ≤ s.clients.length + 1
      ∧ (Tables.applyOp ecdh selfId Hfull maxContacts maxChannels s op).channels.length
          ≤ s.channels.length + 1 := by
  constructor
  · induction hreach with
    | init => exact ⟨by simp, by simp, by simp⟩
    | step s1 op hr ih => exact applyOp_inv ecdh selfId Hfull maxContacts maxChannels s1 op ih
  · intro op
    cases op with
    | advert id ts parsed =>
      exact ⟨(onAdvertRecv_contacts_length ecdh selfId maxContacts s.contacts
        id ts parsed).1, by simp [Tables.applyOp], by simp [Tables.applyOp]⟩
    | addContact c =>
      exact ⟨(addContact_length ecdh selfId maxContacts s.contacts c).1,
        by simp [Tables.applyOp], by simp [Tables.applyOp]⟩
    | anon rtcNow poolOk sender isRouteFlood packetPath ty data =>
      exact ⟨by simp [Tables.applyOp],
        (onAnonDataRecv_clients_length ecdh selfId rtcNow poolOk s.clients
          sender isRouteFlood packetPath ty data).1, by simp [Tables.applyOp]⟩
    | addChannel decoded =>
      exact ⟨by simp [Tables.applyOp], by simp [Tables.applyOp],
        (addChannel_length Hfull maxChannels s.channels decoded).1⟩

/-- C10 witness: the state reached from the initial tables by a valid
advert followed by a successful admin login satisfies the capacity
invariant. -/
theorem c10_table_capacity_witness :
    Tables.inv 4 2
      (Tables.applyOp (fun _ _ => List.replicate 32 9) (List.replicate 32 2)
        (fun b => b.take 1) 4 2
        (Tables.applyOp (fun _ _ => List.replicate 32 9) (List.replicate 32 2)
          (fun b => b.take 1) 4 2 ⟨[], [], []⟩
          (.advert (List.replicate 32 3) 100 (some ("bob", 1))))
        (.anon 1000 true (List.replicate 32 4) true [] .anonReq
          ([9, 0, 0, 0] ++ MyMesh.adminPassword))) :=
  (c10_table_capacity (fun _ _ => List.replicate 32 9) (List.replicate 32 2)
    (fun b => b.take 1) 4 2 _
    (Tables.Reachable.step _ _ (Tables.Reachable.step _ _ Tables.Reachable.init))).1
